import Mathlib

/-!
Verification of the Vertex Memory Bank MCP gateway (shallow embedding).

The Python source is embedded as follows:
* Python dicts with string keys become association lists `Dict`
  (`List (String × Val)`); a Python dict never holds a duplicate key, so
  well-formed inputs satisfy `Dict.WF`.
* Python values become the inductive `Val`.
* remote SDK calls (`vertexai.Client`, `client.agent_engines.*`) become
  oracle parameters of type `... → Except String α`; an `Except.error e`
  models the remote raising an exception whose `str()` is `e`.
* each tool returns the list of remote calls it issued (its trace) along
  with the response dictionary, so "no remote call is made" is the
  trace being empty.
-/

/-- Python values (the fragment the gateway manipulates). -/
inductive Val where
  | null : Val
  | str : String → Val
  | int : Int → Val
  | bool : Bool → Val
  | list : List Val → Val
  | dict : List (String × Val) → Val

/-- A Python dict with string keys, as an association list (insertion order). -/
abbrev Dict := List (String × Val)

namespace Dict

/-- Lookup `d[k]`: first binding of `k` (a real Python dict has at most one). -/
def lookup (d : Dict) (k : String) : Option Val :=
  match d with
  | [] => none
  | (k', v) :: rest => if k' == k then some v else lookup rest k

/-- Assignment `d[k] = v`: replace the first binding of `k` in place, else append. -/
def setKey (d : Dict) (k : String) (v : Val) : Dict :=
  match d with
  | [] => [(k, v)]
  | (k', v') :: rest => if k' == k then (k', v) :: rest else (k', v') :: setKey rest k v

/-- Update `d.update(data)`: Python dict update, binding by binding. -/
def update (d : Dict) (data : Dict) : Dict :=
  data.foldl (fun acc kv => acc.setKey kv.1 kv.2) d

/-- The keys of the dict, in order. -/
def keys (d : Dict) : List String := d.map Prod.fst

/-- Well-formed: no duplicate keys (true of every real Python dict). -/
def WF (d : Dict) : Prop := d.keys.Nodup

end Dict

/-- Python `str()` on the values the gateway renders into messages.
Renderings of composite values are abstracted (no message in a claim
depends on them). -/
def pyStr : Val → String
  | Val.null => "None"
  | Val.str s => s
  | Val.int n => toString n
  | Val.bool b => cond b "True" "False"
  | Val.list _ => "[...]"
  | Val.dict _ => "\x7b...\x7d"

/-!  formatters.py  -/

/-- A memory record as seen through `getattr(memory, field, None)`:
`none` models the attribute being absent.  The two timestamp attributes
are only ever consumed through Python `str()`, so they are embedded as
the string that `str()` yields on them when present. -/
structure MemoryRecord where
  name : Option Val
  fact : Option Val
  scope : Option Val
  created_time : Option String
  updated_time : Option String

/-- Embeds `formatters.format_memory`: defensive field extraction. -/
def format_memory (memory : MemoryRecord) : Dict :=
  [ ("name", memory.name.getD Val.null),
    ("fact", memory.fact.getD Val.null),
    ("scope", memory.scope.getD Val.null),
    ("created_time", Val.str (match memory.created_time with
      | some s => s
      | none => "None")),
    ("updated_time", Val.str (match memory.updated_time with
      | some s => s
      | none => "None")) ]

/-- Embeds `formatters.format_conversation_events`: one event per turn.  The
validated conversation guarantees the `role`/`content` keys are present;
the `getD Val.null` default is unreachable after validation. -/
def format_conversation_events (conversation : List Dict) : List Dict :=
  conversation.map (fun turn =>
    [("content", Val.dict
      [ ("role", (turn.lookup "role").getD Val.null),
        ("parts", Val.list [Val.dict [("text", (turn.lookup "content").getD Val.null)]]) ])])

/-- Embeds `formatters.format_error_response`.  `details` is falsy (skipped)
when it is `None` or the empty dict, exactly as Python `if details:`. -/
def format_error_response (error : String) (details : Option Dict) : Dict :=
  let response : Dict := [("status", Val.str "error"), ("error", Val.str error)]
  match details with
  | some d => if d.isEmpty then response else response.setKey "details" (Val.dict d)
  | none => response

/-- Embeds `formatters.format_success_response`.  `message`/`data` are skipped
when falsy (`None`, empty string, empty dict), as Python `if message:` /
`if data:`. -/
def format_success_response (data : Option Dict) (message : Option String) : Dict :=
  let response : Dict := [("status", Val.str "success")]
  let response := match message with
    | some m => if m.isEmpty then response else response.setKey "message" (Val.str m)
    | none => response
  match data with
  | some d => if d.isEmpty then response else response.update d
  | none => response

/-!  validators.py  -/

/-- The whitespace set of Python `str.strip()` (ASCII part; exotic
unicode whitespace is not exercised by the gateway). -/
def pyIsSpace (c : Char) : Bool :=
  c = ' ' || c = '\t' || c = '\n' || c = '\r' || c = '\x0b' || c = '\x0c'

/-- Python `fact.strip()`: drop leading and trailing whitespace. -/
def pyStrip (s : String) : String :=
  String.mk (((s.data.dropWhile pyIsSpace).reverse.dropWhile pyIsSpace).reverse)

/-- Embeds `validators.validate_scope`.  The `not isinstance(scope, dict)`
branch is unrepresentable in the typed embedding (the argument is a
dict by type); the remaining branches are embedded one to one. -/
def validate_scope (scope : Dict) : Option String :=
  if scope.isEmpty then some "Scope cannot be empty"
  else scope.findSome? (fun kv =>
    match kv.2 with
    | Val.str _ => none
    | v => some ("Scope keys and values must be strings: " ++ kv.1 ++ "=" ++ pyStr v))

/-- The fixed role set of `validators.validate_conversation`. -/
def validRoles : List String := ["user", "assistant", "system"]

/-- One turn check of `validators.validate_conversation`, at index `i`.
A non-string role is never in `valid_roles` (a Python set of strings),
so it takes the invalid-role branch. -/
def checkTurn (i : Nat) (turn : Dict) : Option String :=
  match turn.lookup "role" with
  | none => some ("Turn " ++ toString i ++ " missing 'role' field")
  | some role =>
    match turn.lookup "content" with
    | none => some ("Turn " ++ toString i ++ " missing 'content' field")
    | some _ =>
      match role with
      | Val.str s =>
        if validRoles.contains s then none
        else some ("Turn " ++ toString i ++ " has invalid role: " ++ s)
      | v => some ("Turn " ++ toString i ++ " has invalid role: " ++ pyStr v)

/-- The indexed loop of `validators.validate_conversation`. -/
def checkTurns (conversation : List Dict) (i : Nat) : Option String :=
  match conversation with
  | [] => none
  | turn :: rest =>
    match checkTurn i turn with
    | some e => some e
    | none => checkTurns rest (i + 1)

/-- Embeds `validators.validate_conversation`.  The `not isinstance(conversation,
list)` and `turn not a dict` branches are unrepresentable in the typed
embedding; the rest is embedded one to one. -/
def validate_conversation (conversation : List Dict) : Option String :=
  if conversation.isEmpty then some "Conversation cannot be empty"
  else checkTurns conversation 0

/-- Embeds `validators.validate_memory_fact`.  `not fact or not fact.strip()`
is the first branch; `len(fact) > 10000` the second. -/
def validate_memory_fact (fact : String) : Option String :=
  if fact.isEmpty || (pyStrip fact).isEmpty then some "Fact cannot be empty"
  else if fact.length > 10000 then
    some ("Fact too long: " ++ toString fact.length ++ " characters (max 10000)")
  else none

/-!  config.py and app_state.py  -/

/-- Embeds `config.Config` (pydantic model; `project_id` defaults to the empty
string, the two optional fields to `None`). -/
structure Config where
  project_id : String := ""
  location : String := "us-central1"
  agent_engine_name : Option String := none
  api_key : Option String := none

/-- Embeds `Config.is_valid`: Python `bool(self.project_id or self.api_key)` —
true iff `project_id` is non-empty or `api_key` is a non-empty string. -/
def Config.is_valid (c : Config) : Bool :=
  !c.project_id.isEmpty ||
    (match c.api_key with
     | some k => !k.isEmpty
     | none => false)

/-- An opaque handle to `vertexai.Client`. -/
structure Client where
  id : Nat

/-- An agent-engine handle; the gateway reads only
`agent_engine.api_resource.name`. -/
structure AgentEngine where
  api_resource_name : String

/-- Embeds `app_state.AppState`. -/
structure AppState where
  client : Option Client
  agent_engine : Option AgentEngine
  config : Config
  initialized : Bool

/-- The state built by `AppState.__init__` (the module-level `app`). -/
def initialAppState : AppState :=
  { client := none, agent_engine := none, config := {}, initialized := false }

/-- Embeds `AppState.is_ready`. -/
def AppState.is_ready (st : AppState) : Bool :=
  st.initialized && st.agent_engine.isSome

/-- Embeds `AppState.reset` (keeps `config`, as the source does). -/
def AppState.reset (st : AppState) : AppState :=
  { st with client := none, agent_engine := none, initialized := false }

/-!  tools.py — remote-call shapes (the request each tool sends) -/

/-- The fixed not-ready message every gated tool returns. -/
def notReadyMsg : String :=
  "Memory Bank not initialized. Call initialize_memory_bank first."

/-- Python message for calling a method on `app.client = None`
inside the `try` block. -/
def clientNoneMsg : String := "'NoneType' object has no attribute 'agent_engines'"

/-- Python message for reading `api_resource` on `app.agent_engine = None`
inside the `try` block. -/
def engineNoneMsg : String := "'NoneType' object has no attribute 'api_resource'"

/-- The request of `client.agent_engines.generate_memories`. -/
structure GenerateCall where
  name : String
  events : List Dict
  scope : Dict
  wait_for_completion : Bool

/-- The `similarity_search_params` of a retrieve request. -/
structure SimilarityParams where
  search_query : String
  top_k : Int

/-- The request of `client.agent_engines.retrieve_memories`. -/
structure RetrieveCall where
  name : String
  scope : Dict
  similarity_search_params : Option SimilarityParams

/-- The request of `client.agent_engines.create_memory`. -/
structure CreateMemoryCall where
  name : String
  fact : String
  scope : Dict
  config : Option Dict

/-- The request of `client.agent_engines.list_memories`. -/
structure ListCall where
  name : String
  config : Option Dict

/-!  tools.py — remote response shapes -/

/-- One entry of a generate-memories response; `memory` distinguishes the
attribute being absent (`none`) from being present but `None`
(`some none`), since `hasattr` and `getattr(..., None)` differ there. -/
structure GeneratedMemory where
  action : Option Val
  memory : Option (Option MemoryRecord)
  fact : Option Val

/-- The `response` object of a generate operation, with the two
field-name variants the source probes via `hasattr`. -/
structure GenResponse where
  generatedMemoriesCamel : Option (List GeneratedMemory)
  generated_memories : Option (List GeneratedMemory)

/-- The operation object returned by the remote generate call. -/
structure GenOperation where
  name : String
  done : Bool
  response : Option GenResponse

/-- One retrieved item: `memory` is always present (the source reads
`retrieved.memory` unguarded); `distance` is probed via `hasattr`. -/
structure RetrievedMemory where
  memory : MemoryRecord
  distance : Option Val

/-- The operation object returned by the remote create-memory call.
`self_record` is the operation object itself as seen by `format_memory`
when `operation.response` is falsy. -/
structure CreateOperation where
  response : Option MemoryRecord
  self_record : MemoryRecord

/-!  tools.py — the six tool operations -/

/-- The engine-construction config of `initialize_memory_bank`:
empty unless `memory_topics` is truthy (given and non-empty). -/
def buildInitConfig (memory_topics : Option (List String)) : Dict :=
  match memory_topics with
  | some topics =>
    if topics.isEmpty then []
    else
      [("customization_configs", Val.list
        [Val.dict [("memory_topics", Val.list (topics.map (fun topic =>
          Val.dict [("managed_memory_topic",
            Val.dict [("managed_topic_enum", Val.str topic)])])))]])]
  | none => []

/-- The fallible body of `initialize_memory_bank`'s `try` block: client
construction, then engine get (when `agent_engine_name` is truthy) or
create.  Returns the handles, or the first exception's message. -/
def initPipeline (project_id location : String)
    (memory_topics : Option (List String)) (agent_engine_name : Option String)
    (mkClient : String → String → Except String Client)
    (getEngine : Client → String → Except String AgentEngine)
    (createEngine : Client → Option Dict → Except String AgentEngine) :
    Except String (Client × AgentEngine) :=
  match mkClient project_id location with
  | Except.error e => Except.error e
  | Except.ok client =>
    let config := buildInitConfig memory_topics
    let engineRes :=
      match agent_engine_name with
      | some nm =>
        if nm.isEmpty then
          createEngine client (if config.isEmpty then none
            else some [("context_spec", Val.dict [("memory_bank_config", Val.dict config)])])
        else getEngine client nm
      | none =>
        createEngine client (if config.isEmpty then none
          else some [("context_spec", Val.dict [("memory_bank_config", Val.dict config)])])
    match engineRes with
    | Except.error e => Except.error e
    | Except.ok engine => Except.ok (client, engine)

/-- Embeds `tools.initialize_memory_bank`: on success overwrite the app state
and return the success envelope; on any exception leave the state as it
was and return the error envelope. -/
def initialize_memory_bank (st : AppState) (project_id location : String)
    (memory_topics : Option (List String)) (agent_engine_name : Option String)
    (mkClient : String → String → Except String Client)
    (getEngine : Client → String → Except String AgentEngine)
    (createEngine : Client → Option Dict → Except String AgentEngine) :
    AppState × Dict :=
  match initPipeline project_id location memory_topics agent_engine_name
      mkClient getEngine createEngine with
  | Except.error e => (st, format_error_response e none)
  | Except.ok (client, engine) =>
    ({ client := some client,
       agent_engine := some engine,
       config := { st.config with project_id := project_id, location := location },
       initialized := true },
     format_success_response (some
       [ ("agent_engine_name", Val.str engine.api_resource_name),
         ("project_id", Val.str project_id),
         ("location", Val.str location) ]) none)

/-- Embeds the `server.lifespan` startup: load config from the environment, and if
it is valid try to build a client; on success set `client` and
`initialized` (the engine handle is NOT set on this path). -/
def lifespan_startup (st : AppState) (envCfg : Config)
    (mkClient : String → String → Except String Client) : AppState :=
  let st1 := { st with config := envCfg }
  if envCfg.is_valid then
    match mkClient envCfg.project_id envCfg.location with
    | Except.ok c => { st1 with client := some c, initialized := true }
    | Except.error _ => st1
  else st1

/-- The result dict `tools.generate_memories` builds from the remote
operation (including the two-variant probe for generated memories). -/
def genResult (operation : GenOperation) (scope : Dict) : Dict :=
  let result : Dict :=
    [ ("operation_name", Val.str operation.name),
      ("done", Val.bool operation.done),
      ("scope", Val.dict scope) ]
  match operation.response with
  | some resp =>
    if operation.done then
      let generated_mems :=
        match resp.generatedMemoriesCamel with
        | some l => some l
        | none => resp.generated_memories
      match generated_mems with
      | some l =>
        if l.isEmpty then result
        else result.setKey "generated_memories" (Val.list (l.map (fun mem =>
          Val.dict
            [ ("action", mem.action.getD Val.null),
              ("fact",
                match mem.memory with
                | some (some m) => m.fact.getD Val.null
                | some none => Val.null
                | none => mem.fact.getD Val.null) ])))
      | none => result
    else result
  | none => result

/-- Embeds `tools.generate_memories`. -/
def generate_memories (st : AppState) (conversation : List Dict) (scope : Dict)
    (wait_for_completion : Bool)
    (remote : GenerateCall → Except String GenOperation) :
    List GenerateCall × Dict :=
  if st.is_ready then
    match validate_scope scope with
    | some error => ([], format_error_response error none)
    | none =>
      match validate_conversation conversation with
      | some error => ([], format_error_response error none)
      | none =>
        match st.client with
        | none => ([], format_error_response clientNoneMsg none)
        | some _ =>
          match st.agent_engine with
          | none => ([], format_error_response engineNoneMsg none)
          | some engine =>
            let events := format_conversation_events conversation
            let call : GenerateCall :=
              { name := engine.api_resource_name, events := events,
                scope := scope, wait_for_completion := wait_for_completion }
            match remote call with
            | Except.error e => ([call], format_error_response e none)
            | Except.ok operation =>
              ([call], format_success_response (some (genResult operation scope)) none)
  else ([], format_error_response notReadyMsg none)

/-- The body of `tools.retrieve_memories`'s formatting loop, one
retrieved item at a time: format the memory, then attach
`similarity_score` from the remote-reported distance when `search_query`
is truthy (present and non-empty) and the item has a `distance`
attribute. -/
def retrieveItem (search_query : Option String) (retrieved : RetrievedMemory) : Dict :=
  let memory_data := format_memory retrieved.memory
  if (match search_query with
      | some q => !q.isEmpty
      | none => false) then
    match retrieved.distance with
    | some d => memory_data.setKey "similarity_score" d
    | none => memory_data
  else memory_data

/-- Embeds `tools.retrieve_memories`.  An empty `search_query` is falsy in
Python, so it takes the fetch-all branch and attaches no score. -/
def retrieve_memories (st : AppState) (scope : Dict) (search_query : Option String)
    (top_k : Int)
    (remote : RetrieveCall → Except String (List RetrievedMemory)) :
    List RetrieveCall × Dict :=
  if st.is_ready then
    match validate_scope scope with
    | some error => ([], format_error_response error none)
    | none =>
      match st.client with
      | none => ([], format_error_response clientNoneMsg none)
      | some _ =>
        match st.agent_engine with
        | none => ([], format_error_response engineNoneMsg none)
        | some engine =>
          let queryTruthy :=
            match search_query with
            | some q => !q.isEmpty
            | none => false
          let call : RetrieveCall :=
            if queryTruthy then
              { name := engine.api_resource_name, scope := scope,
                similarity_search_params := some
                  { search_query := search_query.getD "", top_k := top_k } }
            else
              { name := engine.api_resource_name, scope := scope,
                similarity_search_params := none }
          match remote call with
          | Except.error e => ([call], format_error_response e none)
          | Except.ok results =>
            let memories := results.map (retrieveItem search_query)
            ([call], format_success_response (some
              [ ("scope", Val.dict scope),
                ("memories_count", Val.int memories.length),
                ("memories", Val.list (memories.map Val.dict)) ]) none)
  else ([], format_error_response notReadyMsg none)

/-- Embeds `tools.create_memory`.  `memory_data` is built with the trimmed fact
exactly as in the source, but the remote call passes the raw `fact`
argument (`fact=fact`); only `expire_time` is read back out of
`memory_data`.  `format_ttl` embeds `formatters.format_ttl_expiration`
(clock-dependent, so a parameter here). -/
def create_memory (st : AppState) (fact : String) (scope : Dict)
    (ttl_seconds : Option Int) (format_ttl : Int → String)
    (remote : CreateMemoryCall → Except String CreateOperation) :
    List CreateMemoryCall × Dict :=
  if st.is_ready then
    match validate_memory_fact fact with
    | some error => ([], format_error_response error none)
    | none =>
      match validate_scope scope with
      | some error => ([], format_error_response error none)
      | none =>
        let memory_data : Dict := [("fact", Val.str (pyStrip fact)), ("scope", Val.dict scope)]
        let memory_data :=
          match ttl_seconds with
          | some t => if t ≠ 0 && t > 0
              then memory_data.setKey "expire_time" (Val.str (format_ttl t))
              else memory_data
          | none => memory_data
        match st.client with
        | none => ([], format_error_response clientNoneMsg none)
        | some _ =>
          match st.agent_engine with
          | none => ([], format_error_response engineNoneMsg none)
          | some engine =>
            let call : CreateMemoryCall :=
              { name := engine.api_resource_name, fact := fact, scope := scope,
                config :=
                  match memory_data.lookup "expire_time" with
                  | some e => some [("expire_time", e)]
                  | none => none }
            match remote call with
            | Except.error e => ([call], format_error_response e none)
            | Except.ok operation =>
              let memory :=
                match operation.response with
                | some r => r
                | none => operation.self_record
              ([call], format_success_response (some
                [("memory", Val.dict (format_memory memory))]) none)
  else ([], format_error_response notReadyMsg none)

/-- Embeds `tools.delete_memory` (reads only `app.client`, not the engine). -/
def delete_memory (st : AppState) (memory_name : String)
    (remote : String → Except String Unit) : List String × Dict :=
  if st.is_ready then
    match st.client with
    | none => ([], format_error_response clientNoneMsg none)
    | some _ =>
      match remote memory_name with
      | Except.error e => ([memory_name], format_error_response e none)
      | Except.ok _ =>
        ([memory_name], format_success_response (some
          [("deleted", Val.str memory_name)]) none)
  else ([], format_error_response notReadyMsg none)

/-- Embeds `tools.list_memories`.  A zero `page_size` is falsy, so the paging
hint is omitted. -/
def list_memories (st : AppState) (page_size : Int)
    (remote : ListCall → Except String (List MemoryRecord)) :
    List ListCall × Dict :=
  if st.is_ready then
    match st.client with
    | none => ([], format_error_response clientNoneMsg none)
    | some _ =>
      match st.agent_engine with
      | none => ([], format_error_response engineNoneMsg none)
      | some engine =>
        let call : ListCall :=
          { name := engine.api_resource_name,
            config := if page_size ≠ 0
              then some [("page_size", Val.int page_size)] else none }
        match remote call with
        | Except.error e => ([call], format_error_response e none)
        | Except.ok mems =>
          ([call], format_success_response (some
            [ ("count", Val.int mems.length),
              ("memories", Val.list (mems.map (fun m => Val.dict (format_memory m)))) ]) none)
  else ([], format_error_response notReadyMsg none)

/-!  Reachable session states -/

/-- The session states reachable in a process: the initial state, then
any interleaving of server startup, (re-)inits and resets.  The five
gated tools never write to the state (their embeddings return no state),
so they contribute no transition. -/
inductive Reachable : AppState → Prop where
  | start : Reachable initialAppState
  | lifespanStep (st : AppState) (envCfg : Config)
      (mkClient : String → String → Except String Client) :
      Reachable st → Reachable (lifespan_startup st envCfg mkClient)
  | initStep (st : AppState) (project_id location : String)
      (memory_topics : Option (List String)) (agent_engine_name : Option String)
      (mkClient : String → String → Except String Client)
      (getEngine : Client → String → Except String AgentEngine)
      (createEngine : Client → Option Dict → Except String AgentEngine) :
      Reachable st →
      Reachable (initialize_memory_bank st project_id location memory_topics
        agent_engine_name mkClient getEngine createEngine).1
  | resetStep (st : AppState) : Reachable st → Reachable st.reset

/-!  Response-envelope shapes -/

/-- The success envelope shape: top-level `status` is `"success"`. -/
def isSuccessEnvelope (d : Dict) : Prop :=
  d.lookup "status" = some (Val.str "success")

/-- The error envelope shape: top-level `status` is `"error"` and an
`error` message is present. -/
def isErrorEnvelope (d : Dict) : Prop :=
  d.lookup "status" = some (Val.str "error") ∧
    ∃ e, d.lookup "error" = some (Val.str e)

/-- Exactly one of the two envelope shapes of the response contract. -/
def isEnvelope (d : Dict) : Prop := isSuccessEnvelope d ∨ isErrorEnvelope d

/-!  Concrete fixtures for witnesses and counterexamples -/

/-- A concrete client handle. -/
def egClient : Client := { id := 0 }

/-- A concrete engine handle. -/
def egEngine : AgentEngine := { api_resource_name := "projects/p/agentEngines/e1" }

/-- A session state after a successful initialization. -/
def readySt : AppState :=
  { client := some egClient, agent_engine := some egEngine,
    config := {}, initialized := true }

/-- A concrete valid scope. -/
def egScope : Dict := [("user_id", Val.str "u1")]

/-- A concrete valid conversation. -/
def egConversation : List Dict :=
  [[("role", Val.str "user"), ("content", Val.str "hi")]]

/-- The generate request issued from `readySt` with the example inputs. -/
def egGenCall : GenerateCall :=
  { name := egEngine.api_resource_name,
    events := format_conversation_events egConversation,
    scope := egScope, wait_for_completion := true }

/-- The retrieve request issued from `readySt` with query "q", top_k 5. -/
def egRetrieveCall : RetrieveCall :=
  { name := egEngine.api_resource_name, scope := egScope,
    similarity_search_params := some { search_query := "q", top_k := 5 } }

/-- The create request issued from `readySt` with the example fact, no TTL. -/
def egCreateCall : CreateMemoryCall :=
  { name := egEngine.api_resource_name, fact := "likes dark mode",
    scope := egScope, config := none }

/-- The list request issued from `readySt` with page_size 50. -/
def egListCall : ListCall :=
  { name := egEngine.api_resource_name,
    config := some [("page_size", Val.int 50)] }

/-- An environment configuration that makes `Config.is_valid` true. -/
def envCfgP1 : Config := { project_id := "p1" }

/-- The session state right after a lifespan startup that found a valid
environment configuration and built a client. -/
def lifespanSt : AppState :=
  lifespan_startup initialAppState envCfgP1 (fun _ _ => Except.ok egClient)

/-- A concrete remote memory record. -/
def egRecord : MemoryRecord :=
  { name := some (Val.str "mem/1"), fact := some (Val.str "likes dark mode"),
    scope := some (Val.dict egScope),
    created_time := some "2025-01-01 00:00:00+00:00",
    updated_time := some "2025-01-01 00:00:00+00:00" }

/-- A remote create-memory stub that succeeds with `egRecord`. -/
def egCreateOk : CreateMemoryCall → Except String CreateOperation :=
  fun _ => Except.ok { response := some egRecord, self_record := egRecord }

/-- A record with every attribute absent. -/
def emptyRecord : MemoryRecord :=
  { name := none, fact := none, scope := none,
    created_time := none, updated_time := none }

/-- A retrieved item whose remote record reports no distance attribute. -/
def noDistItem : RetrievedMemory := { memory := egRecord, distance := none }

/-- A retrieved item with a remote-reported distance. -/
def distItem : RetrievedMemory := { memory := egRecord, distance := some (Val.int 95) }

/-!  Dictionary lemmas -/

theorem Dict.lookup_setKey_self (d : Dict) (k : String) (v : Val) :
    (d.setKey k v).lookup k = some v := by
  induction d with
  | nil => simp [Dict.setKey, Dict.lookup]
  | cons kv rest ih =>
    obtain ⟨k₀, v₀⟩ := kv
    cases hb : (k₀ == k) <;> simp [Dict.setKey, Dict.lookup, hb, ih]

theorem Dict.lookup_setKey_of_ne (d : Dict) (k k' : String) (v : Val)
    (h : (k == k') = false) : (d.setKey k v).lookup k' = d.lookup k' := by
  induction d with
  | nil => simp [Dict.setKey, Dict.lookup, h]
  | cons kv rest ih =>
    obtain ⟨k₀, v₀⟩ := kv
    by_cases hb : k₀ = k
    · subst hb
      simp [Dict.setKey, Dict.lookup, h]
    · have hb' : (k₀ == k) = false := beq_eq_false_iff_ne.mpr hb
      simp [Dict.setKey, Dict.lookup, hb', ih]

theorem Dict.lookup_eq_none_of_not_mem (d : Dict) (k : String)
    (h : k ∉ d.keys) : d.lookup k = none := by
  induction d with
  | nil => rfl
  | cons kv rest ih =>
    obtain ⟨k₀, v₀⟩ := kv
    simp only [Dict.keys, List.map_cons, List.mem_cons, not_or] at h
    have hb : (k₀ == k) = false := beq_eq_false_iff_ne.mpr (Ne.symm h.1)
    simp [Dict.lookup, hb]
    exact ih h.2

theorem Dict.lookup_update_of_lookup_none (d data : Dict) (k : String)
    (h : data.lookup k = none) : (d.update data).lookup k = d.lookup k := by
  induction data generalizing d with
  | nil => rfl
  | cons kv rest ih =>
    obtain ⟨k₀, v₀⟩ := kv
    by_cases hb : (k₀ == k) = true
    · simp [Dict.lookup, hb] at h
    · have hb' : (k₀ == k) = false := by simpa using hb
      simp only [Dict.lookup, hb', if_false] at h
      show (Dict.update (d.setKey k₀ v₀) rest).lookup k = d.lookup k
      rw [ih _ h, Dict.lookup_setKey_of_ne _ _ _ _ hb']

theorem Dict.lookup_update_of_wf (d data : Dict) (k : String) (v : Val)
    (hwf : data.WF) (h : data.lookup k = some v) :
    (d.update data).lookup k = some v := by
  induction data generalizing d with
  | nil => simp [Dict.lookup] at h
  | cons kv rest ih =>
    obtain ⟨k₀, v₀⟩ := kv
    have hnd := List.nodup_cons.mp hwf
    by_cases hb : (k₀ == k) = true
    · have hk : k₀ = k := by simpa using hb
      subst hk
      simp [Dict.lookup] at h
      subst h
      show (Dict.update (d.setKey k₀ v₀) rest).lookup k₀ = some v₀
      rw [Dict.lookup_update_of_lookup_none _ _ _
          (Dict.lookup_eq_none_of_not_mem _ _ hnd.1),
        Dict.lookup_setKey_self]
    · have hb' : (k₀ == k) = false := by simpa using hb
      simp only [Dict.lookup, hb', if_false] at h
      show (Dict.update (d.setKey k₀ v₀) rest).lookup k = some v
      exact ih _ hnd.2 h

theorem isEnvelope_error (e : String) (details : Option Dict) :
    isEnvelope (format_error_response e details) := by
  right
  cases details with
  | none => exact ⟨rfl, e, rfl⟩
  | some d =>
    cases hd : d.isEmpty with
    | true =>
      simp only [format_error_response, hd, if_true]
      exact ⟨rfl, e, rfl⟩
    | false =>
      simp only [format_error_response, hd, Bool.false_eq_true, if_false]
      exact ⟨rfl, e, rfl⟩

theorem isEnvelope_success_of_status_none (data : Dict)
    (h : data.lookup "status" = none) :
    isEnvelope (format_success_response (some data) none) := by
  left
  cases hd : data.isEmpty with
  | true =>
    simp only [isSuccessEnvelope, format_success_response, hd, if_true]
    rfl
  | false =>
    simp only [isSuccessEnvelope, format_success_response, hd, Bool.false_eq_true, if_false]
    rw [Dict.lookup_update_of_lookup_none _ _ _ h]
    rfl

theorem genResult_status_none (operation : GenOperation) (scope : Dict) :
    (genResult operation scope).lookup "status" = none := by
  unfold genResult
  cases operation.response with
  | none => rfl
  | some resp =>
    cases hdone : operation.done with
    | false => rfl
    | true =>
      simp only [if_true]
      cases hc : resp.generatedMemoriesCamel with
      | some l =>
        cases hl : l.isEmpty with
        | true =>
          simp only [hl, if_true]
          rfl
        | false =>
          simp only [hl, Bool.false_eq_true, if_false]
          rw [Dict.lookup_setKey_of_ne _ _ _ _ (by decide)]
          rfl
      | none =>
        cases hg : resp.generated_memories with
        | some l =>
          cases hl : l.isEmpty with
          | true =>
            simp only [hl, if_true]
            rfl
          | false =>
            simp only [hl, Bool.false_eq_true, if_false]
            rw [Dict.lookup_setKey_of_ne _ _ _ _ (by decide)]
            rfl
        | none => rfl

/-!  Envelope shape of every tool operation (helpers) -/

theorem envelope_init_tool (st : AppState) (project_id location : String)
    (memory_topics : Option (List String)) (agent_engine_name : Option String)
    (mkClient : String → String → Except String Client)
    (getEngine : Client → String → Except String AgentEngine)
    (createEngine : Client → Option Dict → Except String AgentEngine) :
    isEnvelope (initialize_memory_bank st project_id location memory_topics
      agent_engine_name mkClient getEngine createEngine).2 := by
  unfold initialize_memory_bank
  cases h : initPipeline project_id location memory_topics agent_engine_name
      mkClient getEngine createEngine with
  | error e => exact isEnvelope_error e none
  | ok ce =>
    obtain ⟨client, engine⟩ := ce
    dsimp only
    exact isEnvelope_success_of_status_none _ rfl

theorem envelope_generate (st : AppState) (conversation : List Dict) (scope : Dict)
    (wait_for_completion : Bool) (remote : GenerateCall → Except String GenOperation) :
    isEnvelope (generate_memories st conversation scope wait_for_completion remote).2 := by
  unfold generate_memories
  try dsimp only
  repeat' split
  all_goals try dsimp only
  all_goals first
    | exact isEnvelope_error _ _
    | exact isEnvelope_success_of_status_none _ (genResult_status_none _ _)

theorem envelope_retrieve (st : AppState) (scope : Dict) (search_query : Option String)
    (top_k : Int) (remote : RetrieveCall → Except String (List RetrievedMemory)) :
    isEnvelope (retrieve_memories st scope search_query top_k remote).2 := by
  unfold retrieve_memories
  try dsimp only
  repeat' split
  all_goals try dsimp only
  all_goals first
    | exact isEnvelope_error _ _
    | exact isEnvelope_success_of_status_none _ rfl

theorem envelope_create (st : AppState) (fact : String) (scope : Dict)
    (ttl_seconds : Option Int) (format_ttl : Int → String)
    (remote : CreateMemoryCall → Except String CreateOperation) :
    isEnvelope (create_memory st fact scope ttl_seconds format_ttl remote).2 := by
  unfold create_memory
  try dsimp only
  repeat' split
  all_goals try dsimp only
  all_goals first
    | exact isEnvelope_error _ _
    | exact isEnvelope_success_of_status_none _ rfl

theorem envelope_delete (st : AppState) (memory_name : String)
    (remote : String → Except String Unit) :
    isEnvelope (delete_memory st memory_name remote).2 := by
  unfold delete_memory
  try dsimp only
  repeat' split
  all_goals try dsimp only
  all_goals first
    | exact isEnvelope_error _ _
    | exact isEnvelope_success_of_status_none _ rfl

theorem envelope_list (st : AppState) (page_size : Int)
    (remote : ListCall → Except String (List MemoryRecord)) :
    isEnvelope (list_memories st page_size remote).2 := by
  unfold list_memories
  try dsimp only
  repeat' split
  all_goals try dsimp only
  all_goals first
    | exact isEnvelope_error _ _
    | exact isEnvelope_success_of_status_none _ rfl

/-!  Exception-to-envelope conversion (helpers): when the remote raises
`e` on the one call that was made, the response is exactly the error
envelope carrying `e`. -/

theorem initialize_error_of_pipeline (st : AppState) (project_id location : String)
    (memory_topics : Option (List String)) (agent_engine_name : Option String)
    (mkClient : String → String → Except String Client)
    (getEngine : Client → String → Except String AgentEngine)
    (createEngine : Client → Option Dict → Except String AgentEngine) (e : String)
    (h : initPipeline project_id location memory_topics agent_engine_name
      mkClient getEngine createEngine = Except.error e) :
    initialize_memory_bank st project_id location memory_topics agent_engine_name
      mkClient getEngine createEngine = (st, format_error_response e none) := by
  unfold initialize_memory_bank
  rw [h]

theorem generate_error_disj (st : AppState) (conversation : List Dict)
    (scope : Dict) (wait_for_completion : Bool) (e : String) :
    (generate_memories st conversation scope wait_for_completion
        (fun _ => Except.error e)).1 = [] ∨
    (generate_memories st conversation scope wait_for_completion
        (fun _ => Except.error e)).2 = format_error_response e none := by
  unfold generate_memories
  try dsimp only
  repeat' split
  all_goals first | exact Or.inl rfl | exact Or.inr rfl

theorem generate_error_of_remote (st : AppState) (conversation : List Dict)
    (scope : Dict) (wait_for_completion : Bool) (e : String) (c : GenerateCall)
    (hc : (generate_memories st conversation scope wait_for_completion
        (fun _ => Except.error e)).1 = [c]) :
    (generate_memories st conversation scope wait_for_completion
      (fun _ => Except.error e)).2 = format_error_response e none := by
  rcases generate_error_disj st conversation scope wait_for_completion e with h | h
  · exact absurd (h.symm.trans hc) (by simp)
  · exact h

theorem retrieve_error_disj (st : AppState) (scope : Dict)
    (search_query : Option String) (top_k : Int) (e : String) :
    (retrieve_memories st scope search_query top_k (fun _ => Except.error e)).1 = [] ∨
    (retrieve_memories st scope search_query top_k (fun _ => Except.error e)).2 =
      format_error_response e none := by
  unfold retrieve_memories
  try dsimp only
  repeat' split
  all_goals first | exact Or.inl rfl | exact Or.inr rfl

theorem retrieve_error_of_remote (st : AppState) (scope : Dict)
    (search_query : Option String) (top_k : Int) (e : String) (c : RetrieveCall)
    (hc : (retrieve_memories st scope search_query top_k
        (fun _ => Except.error e)).1 = [c]) :
    (retrieve_memories st scope search_query top_k
      (fun _ => Except.error e)).2 = format_error_response e none := by
  rcases retrieve_error_disj st scope search_query top_k e with h | h
  · exact absurd (h.symm.trans hc) (by simp)
  · exact h

theorem create_error_disj (st : AppState) (fact : String) (scope : Dict)
    (ttl_seconds : Option Int) (format_ttl : Int → String) (e : String) :
    (create_memory st fact scope ttl_seconds format_ttl
        (fun _ => Except.error e)).1 = [] ∨
    (create_memory st fact scope ttl_seconds format_ttl
        (fun _ => Except.error e)).2 = format_error_response e none := by
  unfold create_memory
  try dsimp only
  repeat' split
  all_goals first | exact Or.inl rfl | exact Or.inr rfl

theorem create_error_of_remote (st : AppState) (fact : String) (scope : Dict)
    (ttl_seconds : Option Int) (format_ttl : Int → String) (e : String)
    (c : CreateMemoryCall)
    (hc : (create_memory st fact scope ttl_seconds format_ttl
        (fun _ => Except.error e)).1 = [c]) :
    (create_memory st fact scope ttl_seconds format_ttl
      (fun _ => Except.error e)).2 = format_error_response e none := by
  rcases create_error_disj st fact scope ttl_seconds format_ttl e with h | h
  · exact absurd (h.symm.trans hc) (by simp)
  · exact h

theorem delete_error_disj (st : AppState) (memory_name : String) (e : String) :
    (delete_memory st memory_name (fun _ => Except.error e)).1 = [] ∨
    (delete_memory st memory_name (fun _ => Except.error e)).2 =
      format_error_response e none := by
  unfold delete_memory
  try dsimp only
  repeat' split
  all_goals first | exact Or.inl rfl | exact Or.inr rfl

theorem delete_error_of_remote (st : AppState) (memory_name : String) (e : String)
    (c : String)
    (hc : (delete_memory st memory_name (fun _ => Except.error e)).1 = [c]) :
    (delete_memory st memory_name (fun _ => Except.error e)).2 =
      format_error_response e none := by
  rcases delete_error_disj st memory_name e with h | h
  · exact absurd (h.symm.trans hc) (by simp)
  · exact h

theorem list_error_disj (st : AppState) (page_size : Int) (e : String) :
    (list_memories st page_size (fun _ => Except.error e)).1 = [] ∨
    (list_memories st page_size (fun _ => Except.error e)).2 =
      format_error_response e none := by
  unfold list_memories
  try dsimp only
  repeat' split
  all_goals first | exact Or.inl rfl | exact Or.inr rfl

theorem list_error_of_remote (st : AppState) (page_size : Int) (e : String)
    (c : ListCall)
    (hc : (list_memories st page_size (fun _ => Except.error e)).1 = [c]) :
    (list_memories st page_size (fun _ => Except.error e)).2 =
      format_error_response e none := by
  rcases list_error_disj st page_size e with h | h
  · exact absurd (h.symm.trans hc) (by simp)
  · exact h

/-!  C1 -/

/-- C1: every tool gateway operation (initialize_memory_bank,
generate_memories, retrieve_memories, create_memory, delete_memory,
list_memories) returns one of the two envelope shapes — success
(status=success) or error (status=error with an error message) — for
every session state, arguments and remote behaviour; and whenever the
remote call raises, the raised message is converted into exactly the
error envelope carrying it (for initialize, whenever its client/engine
pipeline raises; for the others, whenever the one remote call that was
made raises). -/
theorem c1_envelope_contract :
    (∀ (st : AppState) (project_id location : String)
      (memory_topics : Option (List String)) (agent_engine_name : Option String)
      (mkClient : String → String → Except String Client)
      (getEngine : Client → String → Except String AgentEngine)
      (createEngine : Client → Option Dict → Except String AgentEngine),
      isEnvelope (initialize_memory_bank st project_id location memory_topics
        agent_engine_name mkClient getEngine createEngine).2) ∧
    (∀ (st : AppState) (conversation : List Dict) (scope : Dict)
      (wait_for_completion : Bool) (remote : GenerateCall → Except String GenOperation),
      isEnvelope (generate_memories st conversation scope wait_for_completion remote).2) ∧
    (∀ (st : AppState) (scope : Dict) (search_query : Option String) (top_k : Int)
      (remote : RetrieveCall → Except String (List RetrievedMemory)),
      isEnvelope (retrieve_memories st scope search_query top_k remote).2) ∧
    (∀ (st : AppState) (fact : String) (scope : Dict) (ttl_seconds : Option Int)
      (format_ttl : Int → String) (remote : CreateMemoryCall → Except String CreateOperation),
      isEnvelope (create_memory st fact scope ttl_seconds format_ttl remote).2) ∧
    (∀ (st : AppState) (memory_name : String) (remote : String → Except String Unit),
      isEnvelope (delete_memory st memory_name remote).2) ∧
    (∀ (st : AppState) (page_size : Int)
      (remote : ListCall → Except String (List MemoryRecord)),
      isEnvelope (list_memories st page_size remote).2) ∧
    (∀ (st : AppState) (project_id location : String)
      (memory_topics : Option (List String)) (agent_engine_name : Option String)
      (mkClient : String → String → Except String Client)
      (getEngine : Client → String → Except String AgentEngine)
      (createEngine : Client → Option Dict → Except String AgentEngine) (e : String),
      initPipeline project_id location memory_topics agent_engine_name
        mkClient getEngine createEngine = Except.error e →
      initialize_memory_bank st project_id location memory_topics agent_engine_name
        mkClient getEngine createEngine = (st, format_error_response e none)) ∧
    (∀ (st : AppState) (conversation : List Dict) (scope : Dict)
      (wait_for_completion : Bool) (e : String) (c : GenerateCall),
      (generate_memories st conversation scope wait_for_completion
        (fun _ => Except.error e)).1 = [c] →
      (generate_memories st conversation scope wait_for_completion
        (fun _ => Except.error e)).2 = format_error_response e none) ∧
    (∀ (st : AppState) (scope : Dict) (search_query : Option String) (top_k : Int)
      (e : String) (c : RetrieveCall),
      (retrieve_memories st scope search_query top_k (fun _ => Except.error e)).1 = [c] →
      (retrieve_memories st scope search_query top_k (fun _ => Except.error e)).2 =
        format_error_response e none) ∧
    (∀ (st : AppState) (fact : String) (scope : Dict) (ttl_seconds : Option Int)
      (format_ttl : Int → String) (e : String) (c : CreateMemoryCall),
      (create_memory st fact scope ttl_seconds format_ttl
        (fun _ => Except.error e)).1 = [c] →
      (create_memory st fact scope ttl_seconds format_ttl
        (fun _ => Except.error e)).2 = format_error_response e none) ∧
    (∀ (st : AppState) (memory_name : String) (e : String) (c : String),
      (delete_memory st memory_name (fun _ => Except.error e)).1 = [c] →
      (delete_memory st memory_name (fun _ => Except.error e)).2 =
        format_error_response e none) ∧
    (∀ (st : AppState) (page_size : Int) (e : String) (c : ListCall),
      (list_memories st page_size (fun _ => Except.error e)).1 = [c] →
      (list_memories st page_size (fun _ => Except.error e)).2 =
        format_error_response e none) :=
  ⟨envelope_init_tool, envelope_generate, envelope_retrieve, envelope_create,
   envelope_delete, envelope_list,
   fun st project_id location memory_topics agent_engine_name mk ge ce e h =>
     initialize_error_of_pipeline st project_id location memory_topics
       agent_engine_name mk ge ce e h,
   fun st conversation scope wfc e c hc =>
     generate_error_of_remote st conversation scope wfc e c hc,
   fun st scope q k e c hc => retrieve_error_of_remote st scope q k e c hc,
   fun st fact scope ttl ft e c hc => create_error_of_remote st fact scope ttl ft e c hc,
   fun st nm e c hc => delete_error_of_remote st nm e c hc,
   fun st ps e c hc => list_error_of_remote st ps e c hc⟩

/-- Witness for C1 at concrete inputs: a successful delete yields a
success envelope, and for each operation a failing remote yields exactly
the error envelope carrying the raised message. -/
theorem c1_envelope_contract_witness :
    isEnvelope (delete_memory readySt "mem/1" (fun _ => Except.ok ())).2 ∧
    initialize_memory_bank initialAppState "p1" "us-central1" none none
      (fun _ _ => Except.error "nocred") (fun _ _ => Except.ok egEngine)
      (fun _ _ => Except.ok egEngine) =
      (initialAppState, format_error_response "nocred" none) ∧
    (generate_memories readySt egConversation egScope true
      (fun _ => Except.error "boom")).2 = format_error_response "boom" none ∧
    (retrieve_memories readySt egScope (some "q") 5
      (fun _ => Except.error "boom")).2 = format_error_response "boom" none ∧
    (create_memory readySt "likes dark mode" egScope none (fun _ => "T")
      (fun _ => Except.error "boom")).2 = format_error_response "boom" none ∧
    (delete_memory readySt "mem/1" (fun _ => Except.error "boom")).2 =
      format_error_response "boom" none ∧
    (list_memories readySt 50 (fun _ => Except.error "boom")).2 =
      format_error_response "boom" none :=
  ⟨c1_envelope_contract.2.2.2.2.1 readySt "mem/1" (fun _ => Except.ok ()),
   c1_envelope_contract.2.2.2.2.2.2.1 initialAppState "p1" "us-central1" none none
     (fun _ _ => Except.error "nocred") (fun _ _ => Except.ok egEngine)
     (fun _ _ => Except.ok egEngine) "nocred" rfl,
   c1_envelope_contract.2.2.2.2.2.2.2.1 readySt egConversation egScope true "boom"
     egGenCall rfl,
   c1_envelope_contract.2.2.2.2.2.2.2.2.1 readySt egScope (some "q") 5 "boom"
     egRetrieveCall rfl,
   c1_envelope_contract.2.2.2.2.2.2.2.2.2.1 readySt "likes dark mode" egScope none
     (fun _ => "T") "boom" egCreateCall rfl,
   c1_envelope_contract.2.2.2.2.2.2.2.2.2.2.1 readySt "mem/1" "boom" "mem/1" rfl,
   c1_envelope_contract.2.2.2.2.2.2.2.2.2.2.2 readySt 50 "boom" egListCall rfl⟩

/-!  C2 -/

/-- C2: calling any of generate_memories, retrieve_memories,
create_memory, delete_memory or list_memories while the session state is
not ready returns the error envelope with the fixed not-ready message,
for every combination of arguments and every remote behaviour, and the
remote-call trace is empty (no validation outcome can change the
response and no remote call is performed). -/
theorem c2_readiness_gating :
    (∀ (st : AppState) (conversation : List Dict) (scope : Dict)
      (wait_for_completion : Bool) (remote : GenerateCall → Except String GenOperation),
      st.is_ready = false →
      generate_memories st conversation scope wait_for_completion remote =
        ([], format_error_response notReadyMsg none)) ∧
    (∀ (st : AppState) (scope : Dict) (search_query : Option String) (top_k : Int)
      (remote : RetrieveCall → Except String (List RetrievedMemory)),
      st.is_ready = false →
      retrieve_memories st scope search_query top_k remote =
        ([], format_error_response notReadyMsg none)) ∧
    (∀ (st : AppState) (fact : String) (scope : Dict) (ttl_seconds : Option Int)
      (format_ttl : Int → String)
      (remote : CreateMemoryCall → Except String CreateOperation),
      st.is_ready = false →
      create_memory st fact scope ttl_seconds format_ttl remote =
        ([], format_error_response notReadyMsg none)) ∧
    (∀ (st : AppState) (memory_name : String) (remote : String → Except String Unit),
      st.is_ready = false →
      delete_memory st memory_name remote =
        ([], format_error_response notReadyMsg none)) ∧
    (∀ (st : AppState) (page_size : Int)
      (remote : ListCall → Except String (List MemoryRecord)),
      st.is_ready = false →
      list_memories st page_size remote =
        ([], format_error_response notReadyMsg none)) := by
  refine ⟨?_, ?_, ?_, ?_, ?_⟩
  · intro st conversation scope wfc remote h
    unfold generate_memories
    rw [h]
    rfl
  · intro st scope q k remote h
    unfold retrieve_memories
    rw [h]
    rfl
  · intro st fact scope ttl ft remote h
    unfold create_memory
    rw [h]
    rfl
  · intro st nm remote h
    unfold delete_memory
    rw [h]
    rfl
  · intro st ps remote h
    unfold list_memories
    rw [h]
    rfl

/-- Witness for C2: on the fresh (uninitialized) session state, all five
gated operations with otherwise-valid arguments return the fixed
not-ready error envelope and make no remote call. -/
theorem c2_readiness_gating_witness :
    generate_memories initialAppState egConversation egScope true
      (fun _ => Except.error "unreached") =
      ([], format_error_response notReadyMsg none) ∧
    retrieve_memories initialAppState egScope none 5
      (fun _ => Except.error "unreached") =
      ([], format_error_response notReadyMsg none) ∧
    create_memory initialAppState "likes dark mode" egScope (some 3600)
      (fun _ => "T") (fun _ => Except.error "unreached") =
      ([], format_error_response notReadyMsg none) ∧
    delete_memory initialAppState "mem/1" (fun _ => Except.error "unreached") =
      ([], format_error_response notReadyMsg none) ∧
    list_memories initialAppState 50 (fun _ => Except.error "unreached") =
      ([], format_error_response notReadyMsg none) :=
  ⟨c2_readiness_gating.1 initialAppState egConversation egScope true _ rfl,
   c2_readiness_gating.2.1 initialAppState egScope none 5 _ rfl,
   c2_readiness_gating.2.2.1 initialAppState "likes dark mode" egScope (some 3600) _ _ rfl,
   c2_readiness_gating.2.2.2.1 initialAppState "mem/1" _ rfl,
   c2_readiness_gating.2.2.2.2 initialAppState 50 _ rfl⟩

/-!  C3 -/

/-- C3 counterexample: `lifespanSt` is reachable (one lifespan-startup
step from the initial state), has `initialized = true`, and yet has no
engine handle — so `initialized == true` does not imply the engine
handle is present, and an operation other than initialize_memory_bank
(the server lifespan startup) set `initialized` to true. -/
theorem c3_counterexample :
    Reachable lifespanSt ∧ lifespanSt.initialized = true ∧
      lifespanSt.agent_engine = none :=
  ⟨Reachable.lifespanStep initialAppState envCfgP1 (fun _ _ => Except.ok egClient)
      Reachable.start,
    rfl, rfl⟩

/-- C3 (amended): in every reachable session state, `initialized == true`
implies the client handle is present; the engine handle need not be
present, because besides initialize_memory_bank's success path the
server lifespan startup also sets `initialized` to true (with a client
but no engine) when the environment configuration is valid and client
construction succeeds. -/
theorem c3_initialized_implies_client :
    ∀ st : AppState, Reachable st → st.initialized = true →
      st.client.isSome = true := by
  intro st hr
  induction hr with
  | start =>
    intro h
    exact absurd h (by simp [initialAppState])
  | lifespanStep s cfg mk hr ih =>
    intro h
    by_cases hv : cfg.is_valid = true
    · cases hmk : mk cfg.project_id cfg.location with
      | ok c => simp [lifespan_startup, hv, hmk]
      | error e =>
        simp only [lifespan_startup, hv, if_true, hmk] at h ⊢
        exact ih h
    · simp only [lifespan_startup, if_neg hv] at h ⊢
      exact ih h
  | initStep s project_id location memory_topics agent_engine_name mk ge ce hr ih =>
    intro h
    cases hp : initPipeline project_id location memory_topics agent_engine_name
        mk ge ce with
    | error e =>
      simp only [initialize_memory_bank, hp] at h ⊢
      exact ih h
    | ok pr =>
      obtain ⟨c, eng⟩ := pr
      simp [initialize_memory_bank, hp]
  | resetStep s hr ih =>
    intro h
    exact absurd h (by simp [AppState.reset])

/-- Witness for the amended C3: the state after a successful
initialize_memory_bank is reachable, has `initialized = true`, and the
theorem yields that its client handle is present. -/
theorem c3_initialized_implies_client_witness :
    (initialize_memory_bank initialAppState "p1" "us-central1" none none
      (fun _ _ => Except.ok egClient) (fun _ _ => Except.ok egEngine)
      (fun _ _ => Except.ok egEngine)).1.client.isSome = true :=
  c3_initialized_implies_client _
    (Reachable.initStep initialAppState "p1" "us-central1" none none
      (fun _ _ => Except.ok egClient) (fun _ _ => Except.ok egEngine)
      (fun _ _ => Except.ok egEngine) Reachable.start)
    rfl

/-!  C4 -/

/-- C4: when any exception is raised during client construction or
engine get/create (i.e. the initialization pipeline fails with message
`e`), initialize_memory_bank leaves the session state exactly as it was
— client, engine, config and initialized flag all unchanged — and
returns the error envelope carrying `e`. -/
theorem c4_init_failure_leaves_state_untouched :
    ∀ (st : AppState) (project_id location : String)
      (memory_topics : Option (List String)) (agent_engine_name : Option String)
      (mkClient : String → String → Except String Client)
      (getEngine : Client → String → Except String AgentEngine)
      (createEngine : Client → Option Dict → Except String AgentEngine) (e : String),
      initPipeline project_id location memory_topics agent_engine_name
        mkClient getEngine createEngine = Except.error e →
      initialize_memory_bank st project_id location memory_topics agent_engine_name
        mkClient getEngine createEngine = (st, format_error_response e none) :=
  fun st project_id location memory_topics agent_engine_name mk ge ce e h =>
    initialize_error_of_pipeline st project_id location memory_topics
      agent_engine_name mk ge ce e h

/-- Witness for C4: engine creation fails with "quota" from the ready
state; the returned state is exactly `readySt` and the response is the
"quota" error envelope. -/
theorem c4_init_failure_leaves_state_untouched_witness :
    initialize_memory_bank readySt "p1" "us-central1" (some ["USER_PREFERENCES"])
      none (fun _ _ => Except.ok egClient) (fun _ _ => Except.ok egEngine)
      (fun _ _ => Except.error "quota") =
      (readySt, format_error_response "quota" none) :=
  c4_init_failure_leaves_state_untouched readySt "p1" "us-central1"
    (some ["USER_PREFERENCES"]) none (fun _ _ => Except.ok egClient)
    (fun _ _ => Except.ok egEngine) (fun _ _ => Except.error "quota") "quota" rfl

/-!  C5 -/

/-- C5 (code-bug evidence): called with the whitespace-padded fact
"  likes dark mode  " (and no TTL), create_memory sends the remote call
the raw, untrimmed fact — even though the trimmed fact
"likes dark mode" differs — so the trimming the claim describes never
reaches the remote call.  The TTL half of the claim does hold: the
expiration config is attached for a positive TTL and omitted for
absent, zero and negative TTLs. -/
theorem c5_create_sends_untrimmed_fact :
    (create_memory readySt "  likes dark mode  " egScope none
        (fun _ => "2025-01-02T00:00:00Z") egCreateOk).1 =
      [{ name := egEngine.api_resource_name, fact := "  likes dark mode  ",
         scope := egScope, config := none }] ∧
    pyStrip "  likes dark mode  " = "likes dark mode" ∧
    (create_memory readySt "f" egScope (some 3600)
        (fun _ => "2025-01-02T00:00:00Z") egCreateOk).1 =
      [{ name := egEngine.api_resource_name, fact := "f", scope := egScope,
         config := some [("expire_time", Val.str "2025-01-02T00:00:00Z")] }] ∧
    (create_memory readySt "f" egScope (some 0)
        (fun _ => "2025-01-02T00:00:00Z") egCreateOk).1 =
      [{ name := egEngine.api_resource_name, fact := "f", scope := egScope,
         config := none }] ∧
    (create_memory readySt "f" egScope (some (-7))
        (fun _ => "2025-01-02T00:00:00Z") egCreateOk).1 =
      [{ name := egEngine.api_resource_name, fact := "f", scope := egScope,
         config := none }] ∧
    (create_memory readySt "f" egScope none
        (fun _ => "2025-01-02T00:00:00Z") egCreateOk).1 =
      [{ name := egEngine.api_resource_name, fact := "f", scope := egScope,
         config := none }] :=
  ⟨rfl, rfl, rfl, rfl, rfl, rfl⟩

/-!  C6 -/

/-- C6: format_memory extracts name, fact, scope, created_time and
updated_time defensively — it is total (never raises), always yields
exactly these five fields, and each missing field becomes the
null-equivalent: None for name/fact/scope, and the stringified None
(the string "None") for the two timestamps. -/
theorem c6_format_memory_defensive :
    ∀ m : MemoryRecord,
      (format_memory m).keys =
        ["name", "fact", "scope", "created_time", "updated_time"] ∧
      (m.name = none → (format_memory m).lookup "name" = some Val.null) ∧
      (m.fact = none → (format_memory m).lookup "fact" = some Val.null) ∧
      (m.scope = none → (format_memory m).lookup "scope" = some Val.null) ∧
      (m.created_time = none →
        (format_memory m).lookup "created_time" = some (Val.str "None")) ∧
      (m.updated_time = none →
        (format_memory m).lookup "updated_time" = some (Val.str "None")) := by
  intro m
  refine ⟨rfl, ?_, ?_, ?_, ?_, ?_⟩ <;> intro h <;>
    simp [format_memory, Dict.lookup, h]

/-- Witness for C6 on the all-absent record. -/
theorem c6_format_memory_defensive_witness :
    (format_memory emptyRecord).lookup "name" = some Val.null ∧
    (format_memory emptyRecord).lookup "fact" = some Val.null ∧
    (format_memory emptyRecord).lookup "scope" = some Val.null ∧
    (format_memory emptyRecord).lookup "created_time" = some (Val.str "None") ∧
    (format_memory emptyRecord).lookup "updated_time" = some (Val.str "None") :=
  ⟨(c6_format_memory_defensive emptyRecord).2.1 rfl,
   (c6_format_memory_defensive emptyRecord).2.2.1 rfl,
   (c6_format_memory_defensive emptyRecord).2.2.2.1 rfl,
   (c6_format_memory_defensive emptyRecord).2.2.2.2.1 rfl,
   (c6_format_memory_defensive emptyRecord).2.2.2.2.2 rfl⟩

/-!  C7 -/

/-- C7: generate_memories checks readiness, then validate_scope, then
validate_conversation; create_memory checks readiness, then
validate_memory_fact, then validate_scope.  In each case the first
failing check's message is returned as the envelope's error immediately
— later checks cannot change it — and the empty trace shows no remote
call is made. -/
theorem c7_precondition_order :
    (∀ (st : AppState) (conversation : List Dict) (scope : Dict)
      (wait_for_completion : Bool) (remote : GenerateCall → Except String GenOperation),
      st.is_ready = false →
      generate_memories st conversation scope wait_for_completion remote =
        ([], format_error_response notReadyMsg none)) ∧
    (∀ (st : AppState) (conversation : List Dict) (scope : Dict)
      (wait_for_completion : Bool) (remote : GenerateCall → Except String GenOperation)
      (e : String),
      st.is_ready = true → validate_scope scope = some e →
      generate_memories st conversation scope wait_for_completion remote =
        ([], format_error_response e none)) ∧
    (∀ (st : AppState) (conversation : List Dict) (scope : Dict)
      (wait_for_completion : Bool) (remote : GenerateCall → Except String GenOperation)
      (e : String),
      st.is_ready = true → validate_scope scope = none →
      validate_conversation conversation = some e →
      generate_memories st conversation scope wait_for_completion remote =
        ([], format_error_response e none)) ∧
    (∀ (st : AppState) (fact : String) (scope : Dict) (ttl_seconds : Option Int)
      (format_ttl : Int → String)
      (remote : CreateMemoryCall → Except String CreateOperation),
      st.is_ready = false →
      create_memory st fact scope ttl_seconds format_ttl remote =
        ([], format_error_response notReadyMsg none)) ∧
    (∀ (st : AppState) (fact : String) (scope : Dict) (ttl_seconds : Option Int)
      (format_ttl : Int → String)
      (remote : CreateMemoryCall → Except String CreateOperation) (e : String),
      st.is_ready = true → validate_memory_fact fact = some e →
      create_memory st fact scope ttl_seconds format_ttl remote =
        ([], format_error_response e none)) ∧
    (∀ (st : AppState) (fact : String) (scope : Dict) (ttl_seconds : Option Int)
      (format_ttl : Int → String)
      (remote : CreateMemoryCall → Except String CreateOperation) (e : String),
      st.is_ready = true → validate_memory_fact fact = none →
      validate_scope scope = some e →
      create_memory st fact scope ttl_seconds format_ttl remote =
        ([], format_error_response e none)) := by
  refine ⟨?_, ?_, ?_, ?_, ?_, ?_⟩
  · intro st conversation scope wfc remote h1
    unfold generate_memories
    rw [h1]
    rfl
  · intro st conversation scope wfc remote e h1 h2
    unfold generate_memories
    rw [h1, h2]
    rfl
  · intro st conversation scope wfc remote e h1 h2 h3
    unfold generate_memories
    rw [h1, h2, h3]
    rfl
  · intro st fact scope ttl ft remote h1
    unfold create_memory
    rw [h1]
    rfl
  · intro st fact scope ttl ft remote e h1 h2
    unfold create_memory
    rw [h1, h2]
    rfl
  · intro st fact scope ttl ft remote e h1 h2 h3
    unfold create_memory
    rw [h1, h2, h3]
    rfl

/-- Witness for C7, exhibiting "the earlier check's message wins": from
the ready state, generate_memories with an empty (invalid) scope and an
empty (invalid) conversation reports the scope message; create_memory
with an empty (invalid) fact and an empty (invalid) scope reports the
fact message; and on the uninitialized state with the same doubly
invalid arguments both report the not-ready message. -/
theorem c7_precondition_order_witness :
    generate_memories readySt [] [] true (fun _ => Except.error "unreached") =
      ([], format_error_response "Scope cannot be empty" none) ∧
    generate_memories readySt [] egScope true (fun _ => Except.error "unreached") =
      ([], format_error_response "Conversation cannot be empty" none) ∧
    create_memory readySt "" [] none (fun _ => "T")
      (fun _ => Except.error "unreached") =
      ([], format_error_response "Fact cannot be empty" none) ∧
    create_memory readySt "likes dark mode" [] none (fun _ => "T")
      (fun _ => Except.error "unreached") =
      ([], format_error_response "Scope cannot be empty" none) ∧
    generate_memories initialAppState [] [] true (fun _ => Except.error "unreached") =
      ([], format_error_response notReadyMsg none) ∧
    create_memory initialAppState "" [] none (fun _ => "T")
      (fun _ => Except.error "unreached") =
      ([], format_error_response notReadyMsg none) :=
  ⟨c7_precondition_order.2.1 readySt [] [] true _ "Scope cannot be empty" rfl rfl,
   c7_precondition_order.2.2.1 readySt [] egScope true _
     "Conversation cannot be empty" rfl rfl rfl,
   c7_precondition_order.2.2.2.2.1 readySt "" [] none _ _ "Fact cannot be empty"
     rfl rfl,
   c7_precondition_order.2.2.2.2.2 readySt "likes dark mode" [] none _ _
     "Scope cannot be empty" rfl rfl rfl,
   c7_precondition_order.1 initialAppState [] [] true _ rfl,
   c7_precondition_order.2.2.2.1 initialAppState "" [] none _ _ rfl⟩

/-!  C8 -/

/-- C8: validate_memory_fact returns an error exactly when the trimmed
fact is empty (checked first) or the fact's length exceeds 10,000
characters; the too-long message carries the actual character count;
every other fact yields null (none). -/
theorem c8_validate_memory_fact_spec :
    ∀ fact : String,
      validate_memory_fact fact =
        (if (pyStrip fact).isEmpty then some "Fact cannot be empty"
         else if fact.length > 10000 then
           some ("Fact too long: " ++ toString fact.length ++
             " characters (max 10000)")
         else none) := by
  intro fact
  unfold validate_memory_fact
  by_cases h : fact.isEmpty = true
  · have hf : fact = "" := (String.isEmpty_iff fact).mp h
    subst hf
    rfl
  · have h' : fact.isEmpty = false := by simpa using h
    rw [h']
    rfl

/-!  C9 -/

/-- C9 counterexample: retrieve_memories called with search_query
"python" against a remote returning one item that reports no distance
yields a memories list whose single item is plain `format_memory
egRecord`, which carries no similarity_score field — refuting "every
item in the returned memories list carries a similarity_score field". -/
theorem c9_counterexample :
    ((retrieve_memories readySt egScope (some "python") 5
        (fun _ => Except.ok [noDistItem])).2).lookup "memories" =
      some (Val.list [Val.dict (format_memory egRecord)]) ∧
    (format_memory egRecord).lookup "similarity_score" = none :=
  ⟨rfl, rfl⟩

/-- C9 (amended): on a successful remote retrieve, the response carries
the scope, memories_count equal to the length of the result list, and
the memories each formatted via format_memory through `retrieveItem`;
an item carries similarity_score (taken from the remote distance)
exactly when the search_query is present and non-empty AND the item
reports a distance; items without a reported distance, or any item when
search_query is omitted or empty, are plain format_memory output, which
never contains a similarity_score field. -/
theorem c9_retrieve_scores_amended :
    ∀ (st : AppState) (c : Client) (engine : AgentEngine) (scope : Dict)
      (search_query : Option String) (top_k : Int) (results : List RetrievedMemory),
      st.client = some c → st.agent_engine = some engine → st.is_ready = true →
      validate_scope scope = none →
      ((retrieve_memories st scope search_query top_k
          (fun _ => Except.ok results)).2 =
        format_success_response (some
          [ ("scope", Val.dict scope),
            ("memories_count", Val.int results.length),
            ("memories", Val.list (results.map
              (fun r => Val.dict (retrieveItem search_query r)))) ]) none) ∧
      (∀ (r : RetrievedMemory) (d : Val) (q : String),
        search_query = some q → q.isEmpty = false → r.distance = some d →
        retrieveItem search_query r =
          (format_memory r.memory).setKey "similarity_score" d ∧
        (retrieveItem search_query r).lookup "similarity_score" = some d) ∧
      (∀ r : RetrievedMemory, r.distance = none →
        retrieveItem search_query r = format_memory r.memory) ∧
      (∀ r : RetrievedMemory, search_query = none ∨ search_query = some "" →
        retrieveItem search_query r = format_memory r.memory) ∧
      (∀ r : RetrievedMemory,
        (format_memory r.memory).lookup "similarity_score" = none) := by
  intro st c engine scope search_query top_k results hc he hr hs
  refine ⟨?_, ?_, ?_, ?_, ?_⟩
  · simp only [retrieve_memories, hr, hs, hc, he, if_true, List.length_map,
      List.map_map]
    rfl
  · intro r d q hq hqe hd
    subst hq
    constructor
    · simp only [retrieveItem, hqe, Bool.not_false, if_true, hd]
    · simp only [retrieveItem, hqe, Bool.not_false, if_true, hd]
      exact Dict.lookup_setKey_self _ _ _
  · intro r hd
    cases search_query with
    | none => rfl
    | some q =>
      cases hqe : q.isEmpty with
      | true => simp [retrieveItem, hqe]
      | false => simp [retrieveItem, hqe, hd]
  · intro r h
    rcases h with h | h <;> subst h <;> rfl
  · intro r
    rfl

/-- Witness for the amended C9: from the ready state with query
"python" and a remote returning one distance-carrying item, the
response is the success envelope with that one formatted memory, and
the item's similarity_score is the reported distance. -/
theorem c9_retrieve_scores_amended_witness :
    ((retrieve_memories readySt egScope (some "python") 5
        (fun _ => Except.ok [distItem])).2 =
      format_success_response (some
        [ ("scope", Val.dict egScope),
          ("memories_count", Val.int 1),
          ("memories", Val.list [Val.dict (retrieveItem (some "python") distItem)]) ])
        none) ∧
    (retrieveItem (some "python") distItem).lookup "similarity_score" =
      some (Val.int 95) :=
  ⟨(c9_retrieve_scores_amended readySt egClient egEngine egScope (some "python") 5
      [distItem] rfl rfl rfl rfl).1,
   ((c9_retrieve_scores_amended readySt egClient egEngine egScope (some "python") 5
      [distItem] rfl rfl rfl rfl).2.1 distItem (Val.int 95) "python" rfl rfl rfl).2⟩

/-!  C10 -/

/-- C10: format_success_response merges data by dict update after
setting status, so a data mapping that itself contains a "status" key
overrides the envelope's status with its own value; and falsy arguments
(empty message, empty data) are treated as absent, so
format_success_response({}, "") is exactly the bare success envelope. -/
theorem c10_success_merge_semantics :
    (∀ (data : Dict) (v : Val), data.WF → data.lookup "status" = some v →
      (format_success_response (some data) none).lookup "status" = some v) ∧
    format_success_response (some []) (some "") = [("status", Val.str "success")] := by
  constructor
  · intro data v hwf h
    have hne : data.isEmpty = false := by
      cases data with
      | nil => simp [Dict.lookup] at h
      | cons kv rest => rfl
    simp only [format_success_response, hne, Bool.false_eq_true, if_false]
    exact Dict.lookup_update_of_wf _ _ _ _ hwf h
  · rfl

/-- Witness for C10: data [("status", "overridden")] makes the envelope
report status "overridden" instead of "success". -/
theorem c10_success_merge_semantics_witness :
    (format_success_response (some [("status", Val.str "overridden")]) none).lookup
      "status" = some (Val.str "overridden") ∧
    format_success_response (some []) (some "") = [("status", Val.str "success")] :=
  ⟨c10_success_merge_semantics.1 [("status", Val.str "overridden")]
     (Val.str "overridden") (by simp [Dict.WF, Dict.keys]) rfl,
   c10_success_merge_semantics.2⟩
